import Mathlib

/-!
Shallow embedding of the Test 5 visual-regression + self-healing action
harness of the `my-stagehand-test` repository.

Sources embedded:
* `src/helpers/screenshot.ts` — `compareWithBaseline`, `saveBaseline`;
* `src/helpers/test-runner.ts` — the `VISUAL_DIFF_THRESHOLD` constant,
  directory constants and the `TestResult` record;
* the Test 5 portion of the refactored e2e script (`main`, including the
  inner `actAndAssert` closure, the visual gate, the self-heal cycle and
  result recording);
* the monolithic `actAndAssert` of `src/e2e-cfe.ts` (for the refinement
  comparison).

The external collaborators (the browser, the `pixelmatch` pixel differ, the
`stagehand` act capability) are modelled as scripted data: the environment
supplies the page lists the browser would report and the raster images the
screenshots would capture.  The filesystem is modelled explicitly because
the baseline store and the action cache live on it.
-/

/-! ### Raster images and the pixel differ -/

/-- One RGBA pixel, one byte per channel (the decoded PNG representation). -/
structure Pixel where
  r : Nat
  g : Nat
  b : Nat
  a : Nat
deriving DecidableEq

/-- A decoded raster image: width, height and a row-major pixel buffer,
as produced by `PNG.sync.read`. -/
structure Image where
  width : Nat
  height : Nat
  data : List Pixel
deriving DecidableEq

/-- A decodable raster image: the buffer has exactly `width * height`
pixels and both dimensions are positive (a decodable PNG has no zero
dimension). -/
def Image.wf (img : Image) : Prop :=
  img.data.length = img.width * img.height ∧ 0 < img.width ∧ 0 < img.height

instance (img : Image) : Decidable img.wf := by
  unfold Image.wf; infer_instance

/-- Modelled from the spec: the external `pixelmatch` library's per-pixel
color distance ("per-pixel color-distance comparison").  The exact YIQ
weighting of the library is irrelevant to the claims; what matters is that
it is a distance, in particular zero on equal pixels. -/
def colorDelta (p q : Pixel) : Nat :=
  Nat.dist p.r q.r + Nat.dist p.g q.g + Nat.dist p.b q.b + Nat.dist p.a q.a

/-- Modelled from the spec: the fixed per-pixel tolerance ("anti-aliasing
slack") corresponding to `pixelmatch`'s `threshold: 0.1` option. -/
def pixelTolerance : Nat := 352

/-- Modelled from the spec: a pixel pair counts as differing when its color
distance exceeds the fixed tolerance. -/
def pixelDiffers (p q : Pixel) : Bool :=
  decide (pixelTolerance < colorDelta p q)

/-- Modelled from the spec: `pixelmatch`'s return value — the number of
pixel positions whose color distance exceeds the tolerance. -/
def pixelmatchCount (xs ys : List Pixel) : Nat :=
  ((xs.zip ys).filter fun pq => pixelDiffers pq.1 pq.2).length

/-- The highlight color `pixelmatch` paints on a differing pixel of the
diff output. -/
def diffMark : Pixel := ⟨255, 0, 0, 255⟩

/-- The neutral color a non-differing pixel gets in the diff output. -/
def diffBlank : Pixel := ⟨0, 0, 0, 0⟩

/-- Modelled from the spec: the diff image buffer `pixelmatch` fills —
differing positions are highlighted, all others are neutral. -/
def diffImageData (xs ys : List Pixel) : List Pixel :=
  (xs.zip ys).map fun pq => if pixelDiffers pq.1 pq.2 then diffMark else diffBlank

/-- The diff artifact written by `compareWithBaseline` for two
equal-dimension images. -/
def mkDiffImage (i1 i2 : Image) : Image :=
  ⟨i1.width, i1.height, diffImageData i1.data i2.data⟩

/-- Number of highlighted pixels of a diff artifact — the measure of
whether the artifact is "meaningful". -/
def Image.markedCount (img : Image) : Nat :=
  (img.data.filter fun p => p = diffMark).length

/-! ### Filesystem model

Files store decoded images directly (decode always succeeds on a stored
file, which is exactly the "decodable" hypothesis of the claims);
directories are a plain list of paths.  `rmSync(recursive)` removes a
directory, every file below it and every directory below it. -/

/-- Association-list lookup for the file table; the most recent write of a
path is found first. -/
def lookupFile : List (String × Image) → String → Option Image
  | [], _ => none
  | (q, img) :: rest, p => if q = p then some img else lookupFile rest p

/-- The filesystem: a file table and a set of directories. -/
structure FS where
  files : List (String × Image)
  dirs : List String
deriving DecidableEq

/-- `fs.readFileSync` composed with PNG decoding, as an option. -/
def FS.readFile? (fs : FS) (p : String) : Option Image :=
  lookupFile fs.files p

/-- `fs.existsSync` on a file path. -/
def FS.existsFile (fs : FS) (p : String) : Bool :=
  (fs.readFile? p).isSome

/-- `fs.existsSync` on a directory path. -/
def FS.existsDir (fs : FS) (d : String) : Bool :=
  fs.dirs.contains d

/-- `fs.writeFileSync` (and a screenshot capture writing to a path). -/
def FS.writeFile (fs : FS) (p : String) (img : Image) : FS :=
  ⟨(p, img) :: fs.files, fs.dirs⟩

/-- `p` lies strictly below directory `d`: `d ++ "/"` is a prefix of `p`. -/
def pathUnder (d p : String) : Bool :=
  decide ((d ++ "/").data <+: p.data)

/-- `p` is the directory `d` itself or lies below it. -/
def underOrEq (d p : String) : Bool :=
  decide (p = d) || pathUnder d p

/-- `fs.rmSync(d, { recursive: true })`: removes `d`, every file below it
and every directory below it. -/
def FS.rmRec (fs : FS) (d : String) : FS :=
  ⟨fs.files.filter fun e => !underOrEq d e.1,
   fs.dirs.filter fun x => !underOrEq d x⟩

/-- `fs.mkdirSync(d, { recursive: true })`. -/
def FS.mkdirRec (fs : FS) (d : String) : FS :=
  ⟨fs.files, d :: fs.dirs⟩

/-- `fs.copyFileSync(src, dst)` (the source exists whenever the harness
invokes it; a missing source leaves the filesystem unchanged). -/
def FS.copyFile (fs : FS) (src dst : String) : FS :=
  match fs.readFile? src with
  | some img => fs.writeFile dst img
  | none => fs

/-- The directory `d` is empty: no file and no directory lies below it. -/
def FS.dirEmpty (fs : FS) (d : String) : Bool :=
  (fs.files.all fun e => !pathUnder d e.1) && (fs.dirs.all fun x => !pathUnder d x)

/-! ### Constants from `test-runner.ts` and the e2e script -/

/-- `SCREENSHOT_DIR = path.resolve("screenshots")` (modelled relative). -/
def SCREENSHOT_DIR : String := "screenshots"

/-- `BASELINES_DIR = path.resolve("baselines")` (modelled relative). -/
def BASELINES_DIR : String := "baselines"

/-- `VISUAL_DIFF_THRESHOLD = 0.10` — the 10% visual-regression threshold. -/
def VISUAL_DIFF_THRESHOLD : ℚ := 10 / 100

/-- `comparisonSsPath = path.join(SCREENSHOT_DIR, "05a-before-click.png")`. -/
def comparisonSsPath : String := SCREENSHOT_DIR ++ "/" ++ "05a-before-click.png"

/-- `diffPath = path.join(SCREENSHOT_DIR, "05a-diff.png")`. -/
def diffPath : String := SCREENSHOT_DIR ++ "/" ++ "05a-diff.png"

/-- The path recorded for the new-tab screenshot,
`path.join(SCREENSHOT_DIR, "05b-new-tab.png")`. -/
def newTabPath : String := SCREENSHOT_DIR ++ "/" ++ "05b-new-tab.png"

/-- `cacheDir = path.resolve(".cache/cfe-test")` (modelled relative). -/
def cacheDir : String := ".cache/cfe-test"

/-- The baseline file path for a checkpoint name,
`path.join(baselinesDir, baselineName + ".png")`. -/
def baselineFile (baselinesDir baselineName : String) : String :=
  baselinesDir ++ "/" ++ baselineName ++ ".png"

/-! ### `screenshot.ts`: `compareWithBaseline` and `saveBaseline` -/

/-- The return record of `compareWithBaseline`. -/
structure ComparisonResult where
  mismatchRatio : ℚ
  diffSaved : Bool
  skipped : Bool
deriving DecidableEq

/-- `compareWithBaseline(currentPath, baselineName, { baselinesDir, diffPath })`
from `screenshot.ts`.  Returns the comparison record together with the
resulting filesystem (the diff artifact may be written); `none` models the
exception thrown when, with a baseline present, the current image cannot be
read (`readFileSync`/decode failure). -/
def compareWithBaseline (fs : FS) (currentPath baselineName baselinesDir dPath : String) :
    Option (ComparisonResult × FS) :=
  let baselinePath := baselineFile baselinesDir baselineName
  match fs.readFile? baselinePath with
  | none => some (⟨0, false, true⟩, fs)
  | some img2 =>
    match fs.readFile? currentPath with
    | none => none
    | some img1 =>
      if img1.width ≠ img2.width ∨ img1.height ≠ img2.height then
        some (⟨1, false, false⟩, fs)
      else
        let numDiffPixels := pixelmatchCount img1.data img2.data
        let ratio : ℚ := (numDiffPixels : ℚ) / ((img1.width : ℚ) * (img1.height : ℚ))
        some (⟨ratio, true, false⟩, fs.writeFile dPath (mkDiffImage img1 img2))

/-- `saveBaseline(screenshotPath, baselineName, baselinesDir)` from
`screenshot.ts`: ensure the baselines directory exists, then copy the
screenshot over the baseline file; returns the destination path and the
resulting filesystem. -/
def saveBaseline (fs : FS) (screenshotPath baselineName baselinesDir : String) :
    String × FS :=
  let fs1 := if fs.existsDir baselinesDir then fs else fs.mkdirRec baselinesDir
  let dest := baselineFile baselinesDir baselineName
  (dest, fs1.copyFile screenshotPath dest)

/-! ### Pages and the attempt function -/

/-- A browser page handle: identity (`===` comparison of handles) plus the
URL it currently shows. -/
structure Page where
  id : Nat
  url : String
deriving DecidableEq

/-- The identity of `ctx.page`, the original page handle. -/
def origId : Nat := 0

/-- `"github.com"`, the expected target-domain substring. -/
def ghSubstr : String := "github.com"

/-- JavaScript `haystack.includes(needle)`: substring containment. -/
def substrIn (needle haystack : String) : Bool :=
  decide (needle.data <:+: haystack.data)

/-- The scripted world one attempt observes: the list of open pages
(`ctx.stagehand.context.pages()`) after action + bounded wait + settle
delay, and the URL `ctx.page.url()` reports at that moment. -/
structure AttemptEnv where
  allPages : List Page
  origUrl : String
deriving DecidableEq

/-- The record returned by `actAndAssert`. -/
structure AttemptResult where
  success : Bool
  githubPage : Option Page
  allPages : List Page
deriving DecidableEq

/-- The inner `actAndAssert` closure of the refactored Test 5 (part_000):
find a page whose URL contains `github.com`, also accept the original page
having navigated in place, and report both the verdict and the page list. -/
def actAndAssert (e : AttemptEnv) : AttemptResult :=
  let githubPage := e.allPages.find? fun p => substrIn ghSubstr p.url
  let navigatedInPlace := substrIn ghSubstr e.origUrl
  { success := githubPage.isSome || navigatedInPlace
    githubPage :=
      match githubPage with
      | some p => some p
      | none => if navigatedInPlace then some ⟨origId, e.origUrl⟩ else none
    allPages := e.allPages }

/-- The monolithic `actAndAssert` of `e2e-cfe.ts`: only the new-tab /
any-open-page check, no in-place-navigation fallback. -/
def actAndAssertMono (e : AttemptEnv) : AttemptResult :=
  let githubPage := e.allPages.find? fun p => substrIn ghSubstr p.url
  { success := githubPage.isSome
    githubPage := githubPage
    allPages := e.allPages }

/-! ### The Test 5 orchestrator -/

/-- A `TestResult` record from `test-runner.ts`. -/
structure TestResult where
  step : String
  passed : Bool
  screenshot : String
deriving DecidableEq

/-- The scripted environment of one Test 5 run: the raster the pre-click
viewport screenshot captures, what each of the (at most two) attempts
observes, and the raster a new-tab screenshot would capture. -/
structure Test5Env where
  preClickImage : Image
  att1 : AttemptEnv
  att2 : AttemptEnv
  newTabImage : Image
deriving DecidableEq

/-- Everything one completed Test 5 run exposes: the comparison outcome,
the recorded `TestResult`, how many times `actAndAssert` ran, whether the
self-heal cycle ran, which screenshot files were captured during the step,
the filesystem state at the moment the retry attempt started (when the
self-heal cycle ran), and the final filesystem. -/
structure Test5Outcome where
  comparison : ComparisonResult
  result : TestResult
  attemptsMade : Nat
  selfHealInvoked : Bool
  captured : List String
  fsAtRetry : Option FS
  fs : FS
deriving DecidableEq

/-- The visual gate of Test 5: `!comparison.skipped &&
comparison.mismatchRatio > VISUAL_DIFF_THRESHOLD`. -/
def visuallyBroken (c : ComparisonResult) : Bool :=
  !c.skipped && decide (VISUAL_DIFF_THRESHOLD < c.mismatchRatio)

/-- The self-heal cache invalidation of the e2e script:
`if (fs.existsSync(cacheDir)) { fs.rmSync(cacheDir, {recursive}); fs.mkdirSync(cacheDir, {recursive}); }`. -/
def clearCache (fs : FS) : FS :=
  if fs.existsDir cacheDir then (fs.rmRec cacheDir).mkdirRec cacheDir else fs

/-- The tail of Test 5 after the final attempt: capture the last open page
as the new-tab screenshot when it differs from the original page (an empty
page list crashes the handle access, modelled as `none`), then record the
step result with the fixed new-tab path as artifact and, on success, save
the pre-click screenshot as the new baseline. -/
def finishTest5 (fs : FS) (comparison : ComparisonResult) (a : AttemptResult)
    (attempts : Nat) (healed : Bool) (fsr : Option FS) (env : Test5Env) :
    Option Test5Outcome :=
  match a.allPages.getLast? with
  | none => none
  | some lastP =>
    let newTabTaken := lastP.id ≠ origId
    let fsA := if newTabTaken then fs.writeFile newTabPath env.newTabImage else fs
    let captured :=
      if newTabTaken then [comparisonSsPath, newTabPath] else [comparisonSsPath]
    if a.success then
      let saved := saveBaseline fsA comparisonSsPath "05a-before-click" BASELINES_DIR
      some { comparison := comparison
             result := ⟨"Test 5: Click GitHub link", true, newTabPath⟩
             attemptsMade := attempts
             selfHealInvoked := healed
             captured := captured
             fsAtRetry := fsr
             fs := saved.2 }
    else
      some { comparison := comparison
             result := ⟨"Test 5: Click GitHub link", false, newTabPath⟩
             attemptsMade := attempts
             selfHealInvoked := healed
             captured := captured
             fsAtRetry := fsr
             fs := fsA }

/-- The Test 5 orchestrator of the refactored e2e script: capture the
pre-click viewport screenshot, compare against the stored baseline, abort
as failed (diff image as artifact) when the page is visually broken,
otherwise run `actAndAssert`, self-heal (close extra tabs, clear the
cache, reload) and retry once on failure, and record the step. -/
def test5 (fs0 : FS) (env : Test5Env) : Option Test5Outcome :=
  let fs1 := fs0.writeFile comparisonSsPath env.preClickImage
  match compareWithBaseline fs1 comparisonSsPath "05a-before-click" BASELINES_DIR diffPath with
  | none => none
  | some (comparison, fs2) =>
    if visuallyBroken comparison then
      some { comparison := comparison
             result := ⟨"Test 5: Click GitHub link", false, diffPath⟩
             attemptsMade := 0
             selfHealInvoked := false
             captured := [comparisonSsPath]
             fsAtRetry := none
             fs := fs2 }
    else
      let a1 := actAndAssert env.att1
      if a1.success then
        finishTest5 fs2 comparison a1 1 false none env
      else
        let fs3 := clearCache fs2
        let a2 := actAndAssert env.att2
        finishTest5 fs3 comparison a2 2 true (some fs3) env

/-! ### Helper lemmas about the pixel differ -/

theorem pixelDiffers_self (p : Pixel) : pixelDiffers p p = false := by
  simp [pixelDiffers, colorDelta, Nat.dist_self, pixelTolerance]

theorem pixelmatchCount_self (xs : List Pixel) : pixelmatchCount xs xs = 0 := by
  induction xs with
  | nil => rfl
  | cons x rest ih =>
    simpa [pixelmatchCount, List.zip_cons_cons, List.filter_cons, pixelDiffers_self]
      using ih

theorem pixelmatchCount_le (xs ys : List Pixel) :
    pixelmatchCount xs ys ≤ min xs.length ys.length := by
  calc pixelmatchCount xs ys ≤ (xs.zip ys).length := List.length_filter_le _ _
  _ = min xs.length ys.length := List.length_zip xs ys

theorem markedCount_mkDiffImage_self (img : Image) :
    (mkDiffImage img img).markedCount = 0 := by
  show (List.filter _ (diffImageData img.data img.data)).length = 0
  induction img.data with
  | nil => rfl
  | cons x rest ih =>
    simpa [diffImageData, List.zip_cons_cons, List.filter_cons, pixelDiffers_self,
      diffBlank, diffMark] using ih

/-! ### Helper lemmas about the filesystem model -/

theorem lookupFile_filter_pos (l : List (String × Image)) (f : String → Bool)
    (p : String) (hf : f p = true) :
    lookupFile (l.filter fun e => f e.1) p = lookupFile l p := by
  induction l with
  | nil => rfl
  | cons e rest ih =>
    by_cases hq : e.1 = p
    · subst hq
      simp [List.filter_cons, hf, lookupFile, ih]
    · cases hfe : f e.1 with
      | false => simpa [List.filter_cons, hfe, lookupFile, hq] using ih
      | true =>
        obtain ⟨q, img⟩ := e
        simp only at hq
        simp [List.filter_cons, hfe, lookupFile, hq, ih]

theorem FS.readFile?_writeFile (fs : FS) (p : String) (img : Image) (q : String) :
    (fs.writeFile p img).readFile? q = if p = q then some img else fs.readFile? q :=
  rfl

theorem FS.readFile?_writeFile_ne (fs : FS) (p : String) (img : Image) (q : String)
    (h : p ≠ q) : (fs.writeFile p img).readFile? q = fs.readFile? q := by
  simp [FS.readFile?_writeFile, h]

theorem FS.readFile?_mkdirRec (fs : FS) (d q : String) :
    (fs.mkdirRec d).readFile? q = fs.readFile? q := rfl

theorem FS.readFile?_rmRec_of_not_under (fs : FS) (d q : String)
    (h : underOrEq d q = false) :
    (fs.rmRec d).readFile? q = fs.readFile? q :=
  lookupFile_filter_pos fs.files (fun x => !underOrEq d x) q (by simp [h])

theorem FS.existsDir_writeFile (fs : FS) (p : String) (img : Image) (d : String) :
    (fs.writeFile p img).existsDir d = fs.existsDir d := rfl

theorem clearCache_of_absent (fs : FS) (h : fs.existsDir cacheDir = false) :
    clearCache fs = fs := by
  simp [clearCache, h]

theorem clearCache_existsDir (fs : FS) (h : fs.existsDir cacheDir = true) :
    (clearCache fs).existsDir cacheDir = true := by
  unfold clearCache
  rw [if_pos h]
  simp [FS.existsDir, FS.mkdirRec]

theorem pathUnder_of_underOrEq_eq_false (d p : String) (h : underOrEq d p = false) :
    pathUnder d p = false := by
  simp only [underOrEq, Bool.or_eq_false_iff] at h
  exact h.2

theorem clearCache_dirEmpty (fs : FS) (h : fs.existsDir cacheDir = true) :
    (clearCache fs).dirEmpty cacheDir = true := by
  unfold clearCache
  rw [if_pos h]
  simp only [FS.dirEmpty, FS.mkdirRec, FS.rmRec, Bool.and_eq_true, List.all_eq_true]
  refine ⟨fun e he => ?_, fun x hx => ?_⟩
  · rw [List.mem_filter] at he
    have := pathUnder_of_underOrEq_eq_false cacheDir e.1 (by simpa using he.2)
    simp [this]
  · rcases List.mem_cons.mp hx with hx | hx
    · subst hx
      decide
    · rw [List.mem_filter] at hx
      have := pathUnder_of_underOrEq_eq_false cacheDir x (by simpa using hx.2)
      simp [this]

theorem clearCache_readFile?_of_not_under (fs : FS) (q : String)
    (h : underOrEq cacheDir q = false) :
    (clearCache fs).readFile? q = fs.readFile? q := by
  unfold clearCache
  split
  · rw [FS.readFile?_mkdirRec, FS.readFile?_rmRec_of_not_under fs cacheDir q h]
  · rfl

/-! ### Helper lemmas about `compareWithBaseline` -/

theorem compareWithBaseline_no_baseline (fs : FS) (cur nm bd dp : String)
    (h : fs.readFile? (baselineFile bd nm) = none) :
    compareWithBaseline fs cur nm bd dp = some (⟨0, false, true⟩, fs) := by
  unfold compareWithBaseline
  dsimp only
  rw [h]

theorem compareWithBaseline_dim_mismatch (fs : FS) (cur nm bd dp : String)
    (img1 img2 : Image)
    (h1 : fs.readFile? (baselineFile bd nm) = some img2)
    (h2 : fs.readFile? cur = some img1)
    (hd : img1.width ≠ img2.width ∨ img1.height ≠ img2.height) :
    compareWithBaseline fs cur nm bd dp = some (⟨1, false, false⟩, fs) := by
  unfold compareWithBaseline
  dsimp only
  rw [h1, h2]
  dsimp only
  rw [if_pos hd]

theorem compareWithBaseline_equal_dims (fs : FS) (cur nm bd dp : String)
    (img1 img2 : Image)
    (h1 : fs.readFile? (baselineFile bd nm) = some img2)
    (h2 : fs.readFile? cur = some img1)
    (hw : img1.width = img2.width) (hh : img1.height = img2.height) :
    compareWithBaseline fs cur nm bd dp =
      some (⟨(pixelmatchCount img1.data img2.data : ℚ) /
          ((img1.width : ℚ) * (img1.height : ℚ)), true, false⟩,
        fs.writeFile dp (mkDiffImage img1 img2)) := by
  unfold compareWithBaseline
  dsimp only
  rw [h1, h2]
  dsimp only
  rw [if_neg (by push_neg; exact ⟨hw, hh⟩)]

theorem compareWithBaseline_preserves (fs : FS) (cur nm bd dp : String)
    (c : ComparisonResult) (fs' : FS)
    (h : compareWithBaseline fs cur nm bd dp = some (c, fs')) (q : String)
    (hq : q ≠ dp) :
    fs'.readFile? q = fs.readFile? q ∧ fs'.dirs = fs.dirs := by
  unfold compareWithBaseline at h
  dsimp only at h
  split at h
  · rw [Option.some.injEq, Prod.mk.injEq] at h
    obtain ⟨-, rfl⟩ := h
    exact ⟨rfl, rfl⟩
  · split at h
    · exact absurd h (by simp)
    · split at h
      · rw [Option.some.injEq, Prod.mk.injEq] at h
        obtain ⟨-, rfl⟩ := h
        exact ⟨rfl, rfl⟩
      · rw [Option.some.injEq, Prod.mk.injEq] at h
        obtain ⟨-, rfl⟩ := h
        exact ⟨FS.readFile?_writeFile_ne _ _ _ _ fun hdp => hq hdp.symm, rfl⟩

/-! ### Characterization of one completed Test 5 run -/

theorem finishTest5_eq_some (fs : FS) (c : ComparisonResult) (a : AttemptResult)
    (n : Nat) (healed : Bool) (fsr : Option FS) (env : Test5Env) (out : Test5Outcome)
    (h : finishTest5 fs c a n healed fsr env = some out) :
    ∃ lastP, a.allPages.getLast? = some lastP ∧
      out.comparison = c ∧
      out.attemptsMade = n ∧
      out.selfHealInvoked = healed ∧
      out.fsAtRetry = fsr ∧
      out.result.step = "Test 5: Click GitHub link" ∧
      out.result.passed = a.success ∧
      out.result.screenshot = newTabPath ∧
      out.captured = (if lastP.id ≠ origId then [comparisonSsPath, newTabPath]
        else [comparisonSsPath]) ∧
      out.fs = (if a.success then
          (saveBaseline
            (if lastP.id ≠ origId then fs.writeFile newTabPath env.newTabImage else fs)
            comparisonSsPath "05a-before-click" BASELINES_DIR).2
        else
          (if lastP.id ≠ origId then fs.writeFile newTabPath env.newTabImage else fs)) := by
  unfold finishTest5 at h
  split at h
  · exact absurd h (by simp)
  · rename_i lastP hlast
    refine ⟨lastP, hlast, ?_⟩
    by_cases hs : a.success = true
    · rw [if_pos hs] at h
      rw [Option.some.injEq] at h
      subst h
      simp [hs]
    · rw [if_neg hs] at h
      rw [Option.some.injEq] at h
      subst h
      simp [hs]

theorem test5_eq_some (fs0 : FS) (env : Test5Env) (out : Test5Outcome)
    (h : test5 fs0 env = some out) :
    ∃ c fs2, compareWithBaseline (fs0.writeFile comparisonSsPath env.preClickImage)
        comparisonSsPath "05a-before-click" BASELINES_DIR diffPath = some (c, fs2) ∧
      out.comparison = c ∧
      ((visuallyBroken c = true ∧
          out = ⟨c, ⟨"Test 5: Click GitHub link", false, diffPath⟩, 0, false,
            [comparisonSsPath], none, fs2⟩) ∨
        (visuallyBroken c = false ∧ (actAndAssert env.att1).success = true ∧
          finishTest5 fs2 c (actAndAssert env.att1) 1 false none env = some out) ∨
        (visuallyBroken c = false ∧ (actAndAssert env.att1).success = false ∧
          finishTest5 (clearCache fs2) c (actAndAssert env.att2) 2 true
            (some (clearCache fs2)) env = some out)) := by
  unfold test5 at h
  dsimp only at h
  split at h
  · exact absurd h (by simp)
  · rename_i pr c fs2 hcmp
    refine ⟨c, fs2, hcmp, ?_⟩
    by_cases hb : visuallyBroken c = true
    · rw [if_pos hb] at h
      rw [Option.some.injEq] at h
      subst h
      exact ⟨rfl, Or.inl ⟨hb, rfl⟩⟩
    · rw [if_neg hb] at h
      rw [Bool.not_eq_true] at hb
      by_cases hs : (actAndAssert env.att1).success = true
      · rw [if_pos hs] at h
        obtain ⟨lastP, -, hcomp, -⟩ := finishTest5_eq_some _ _ _ _ _ _ _ _ h
        exact ⟨hcomp, Or.inr (Or.inl ⟨hb, hs, h⟩)⟩
      · rw [if_neg hs] at h
        rw [Bool.not_eq_true] at hs
        obtain ⟨lastP, -, hcomp, -⟩ := finishTest5_eq_some _ _ _ _ _ _ _ _ h
        exact ⟨hcomp, Or.inr (Or.inr ⟨hb, hs, h⟩)⟩

/-! ### Helper lemmas about `saveBaseline` and baseline tracking -/

theorem FS.readFile?_writeFile_self (fs : FS) (p : String) (img : Image) :
    (fs.writeFile p img).readFile? p = some img := by
  simp [FS.readFile?_writeFile]

theorem saveBaseline_readFile (fs : FS) (src nm bdir : String) (img : Image)
    (h : fs.readFile? src = some img) :
    ((saveBaseline fs src nm bdir).2).readFile? (baselineFile bdir nm) = some img := by
  unfold saveBaseline FS.copyFile
  dsimp only
  by_cases hd : fs.existsDir bdir = true
  · rw [if_pos hd, h]
    exact FS.readFile?_writeFile_self _ _ _
  · rw [if_neg hd]
    rw [show (fs.mkdirRec bdir).readFile? src = some img from h]
    exact FS.readFile?_writeFile_self _ _ _

theorem finishTest5_baseline (fsIn : FS) (c : ComparisonResult) (a : AttemptResult)
    (n : Nat) (healed : Bool) (fsr : Option FS) (env : Test5Env) (out : Test5Outcome)
    (b0 : Option Image)
    (hfin : finishTest5 fsIn c a n healed fsr env = some out)
    (hcs : fsIn.readFile? comparisonSsPath = some env.preClickImage)
    (hbp : fsIn.readFile? (baselineFile BASELINES_DIR "05a-before-click") = b0) :
    (out.result.passed = true →
      out.fs.readFile? (baselineFile BASELINES_DIR "05a-before-click") =
        some env.preClickImage) ∧
    (out.result.passed = false →
      out.fs.readFile? (baselineFile BASELINES_DIR "05a-before-click") = b0) := by
  obtain ⟨lastP, -, -, -, -, -, -, hpass, -, -, hfs⟩ :=
    finishTest5_eq_some _ _ _ _ _ _ _ _ hfin
  have hcsA : (if lastP.id ≠ origId then fsIn.writeFile newTabPath env.newTabImage
      else fsIn).readFile? comparisonSsPath = some env.preClickImage := by
    split
    · rw [FS.readFile?_writeFile_ne _ _ _ _ (by decide)]
      exact hcs
    · exact hcs
  have hbpA : (if lastP.id ≠ origId then fsIn.writeFile newTabPath env.newTabImage
      else fsIn).readFile? (baselineFile BASELINES_DIR "05a-before-click") = b0 := by
    split
    · rw [FS.readFile?_writeFile_ne _ _ _ _ (by decide)]
      exact hbp
    · exact hbp
  by_cases hs : a.success = true
  · rw [if_pos hs] at hfs
    constructor
    · intro _
      rw [hfs]
      exact saveBaseline_readFile _ _ _ _ _ hcsA
    · intro hpf
      rw [hpass, hs] at hpf
      exact Bool.noConfusion hpf
  · rw [if_neg hs] at hfs
    rw [Bool.not_eq_true] at hs
    constructor
    · intro hpt
      rw [hpass, hs] at hpt
      exact Bool.noConfusion hpt
    · intro _
      rw [hfs]
      exact hbpA

/-! ### Claims -/

/-- Claim C3: the attempt's outcome verification declares success if and
only if either some open page's URL contains the substring `github.com`
(the new-tab case) or the original page's own URL contains that substring
(the same-tab in-place navigation case). -/
theorem c3_success_iff_github_page_or_in_place (e : AttemptEnv) :
    (actAndAssert e).success = true ↔
      ((∃ p ∈ e.allPages, substrIn ghSubstr p.url = true) ∨
        substrIn ghSubstr e.origUrl = true) := by
  simp [actAndAssert, List.find?_isSome]

/-- Claim C9: the monolithic `actAndAssert` of `e2e-cfe.ts` and the
refactored one compute the same success verdict for every final
open-page-list state in which the original page is a member of the
open-page list; the extra in-place-navigation check never changes the
verdict. -/
theorem c9_mono_matches_refactored (e : AttemptEnv)
    (h : Page.mk origId e.origUrl ∈ e.allPages) :
    (actAndAssertMono e).success = (actAndAssert e).success := by
  simp only [actAndAssertMono, actAndAssert]
  rcases hn : substrIn ghSubstr e.origUrl with _ | _
  · simp
  · have hs : (e.allPages.find? fun p => substrIn ghSubstr p.url).isSome = true :=
      List.find?_isSome.mpr ⟨⟨origId, e.origUrl⟩, h, hn⟩
    simp [hs]

/-- Witness for C9 at a concrete page list containing the original page,
whose URL shows the in-place navigation. -/
theorem c9_witness :
    (actAndAssertMono ⟨[⟨0, "https://github.com/uzulla"⟩],
        "https://github.com/uzulla"⟩).success =
      (actAndAssert ⟨[⟨0, "https://github.com/uzulla"⟩],
        "https://github.com/uzulla"⟩).success :=
  c9_mono_matches_refactored
    ⟨[⟨0, "https://github.com/uzulla"⟩], "https://github.com/uzulla"⟩ (by decide)

/-- Claim C6: `compareWithBaseline` returns `skipped = true` if and only
if no baseline file exists for the checkpoint name, and whenever
`skipped = true` the result also has `mismatchRatio = 0` and
`diffSaved = false`. -/
theorem c6_skipped_iff_no_baseline (fs : FS) (cur nm bd dp : String)
    (c : ComparisonResult) (fs' : FS)
    (h : compareWithBaseline fs cur nm bd dp = some (c, fs')) :
    (c.skipped = true ↔ fs.readFile? (baselineFile bd nm) = none) ∧
      (c.skipped = true → c.mismatchRatio = 0 ∧ c.diffSaved = false) := by
  unfold compareWithBaseline at h
  dsimp only at h
  split at h
  · rename_i hb
    rw [Option.some.injEq, Prod.mk.injEq] at h
    obtain ⟨rfl, -⟩ := h
    simp [hb]
  · rename_i img2 hb
    split at h
    · exact absurd h (by simp)
    · split at h
      · rw [Option.some.injEq, Prod.mk.injEq] at h
        obtain ⟨rfl, -⟩ := h
        simp [hb]
      · rw [Option.some.injEq, Prod.mk.injEq] at h
        obtain ⟨rfl, -⟩ := h
        simp [hb]

/-- Witness for C6 on an empty filesystem (no baseline stored). -/
theorem c6_witness :
    (((⟨0, false, true⟩ : ComparisonResult).skipped = true ↔
        (⟨[], []⟩ : FS).readFile? (baselineFile "baselines" "05a-before-click") = none) ∧
      ((⟨0, false, true⟩ : ComparisonResult).skipped = true →
        (⟨0, false, true⟩ : ComparisonResult).mismatchRatio = 0 ∧
          (⟨0, false, true⟩ : ComparisonResult).diffSaved = false)) :=
  c6_skipped_iff_no_baseline ⟨[], []⟩ "screenshots/05a-before-click.png"
    "05a-before-click" "baselines" "screenshots/05a-diff.png"
    ⟨0, false, true⟩ ⟨[], []⟩ (by decide)

/-- Claim C7: for every pair of decodable images whose widths or heights
differ, the comparison returns `mismatchRatio = 1`, `skipped = false`,
and produces no diff artifact (`diffSaved = false`, filesystem
unchanged). -/
theorem c7_dim_mismatch_total (fs : FS) (cur nm bd dp : String)
    (img1 img2 : Image)
    (h1 : fs.readFile? cur = some img1)
    (h2 : fs.readFile? (baselineFile bd nm) = some img2)
    (hd : img1.width ≠ img2.width ∨ img1.height ≠ img2.height) :
    compareWithBaseline fs cur nm bd dp = some (⟨1, false, false⟩, fs) :=
  compareWithBaseline_dim_mismatch fs cur nm bd dp img1 img2 h2 h1 hd

/-- Witness for C7: a 1x1 current image against a 2x1 baseline. -/
theorem c7_witness :
    compareWithBaseline
      ⟨[("screenshots/05a-before-click.png", ⟨1, 1, [⟨0, 0, 0, 255⟩]⟩),
        ("baselines/05a-before-click.png", ⟨2, 1, [⟨0, 0, 0, 255⟩, ⟨0, 0, 0, 255⟩]⟩)], []⟩
      "screenshots/05a-before-click.png" "05a-before-click" "baselines"
      "screenshots/05a-diff.png" =
    some (⟨1, false, false⟩,
      ⟨[("screenshots/05a-before-click.png", ⟨1, 1, [⟨0, 0, 0, 255⟩]⟩),
        ("baselines/05a-before-click.png", ⟨2, 1, [⟨0, 0, 0, 255⟩, ⟨0, 0, 0, 255⟩]⟩)], []⟩) :=
  c7_dim_mismatch_total _ _ _ _ _ ⟨1, 1, [⟨0, 0, 0, 255⟩]⟩
    ⟨2, 1, [⟨0, 0, 0, 255⟩, ⟨0, 0, 0, 255⟩]⟩ (by decide) (by decide) (by decide)

/-- Claim C8: for every pair of decodable equal-dimension images the
comparison is deterministic, with
`mismatchRatio = differingPixels / totalPixels` lying in `[0, 1]`, and
for two identical images the ratio is `0` and the diff artifact
highlights no pixel. -/
theorem c8_equal_dims_ratio (fs : FS) (cur nm bd dp : String)
    (img1 img2 : Image)
    (h1 : fs.readFile? cur = some img1)
    (h2 : fs.readFile? (baselineFile bd nm) = some img2)
    (hwf1 : img1.wf) (hwf2 : img2.wf)
    (hw : img1.width = img2.width) (hh : img1.height = img2.height) :
    ∃ c : ComparisonResult,
      compareWithBaseline fs cur nm bd dp =
        some (c, fs.writeFile dp (mkDiffImage img1 img2)) ∧
      c.skipped = false ∧ c.diffSaved = true ∧
      c.mismatchRatio = (pixelmatchCount img1.data img2.data : ℚ) /
        ((img1.width : ℚ) * (img1.height : ℚ)) ∧
      0 ≤ c.mismatchRatio ∧ c.mismatchRatio ≤ 1 ∧
      (img1 = img2 →
        c.mismatchRatio = 0 ∧ (mkDiffImage img1 img2).markedCount = 0) := by
  obtain ⟨hlen1, hwpos, hhpos⟩ := hwf1
  obtain ⟨hlen2, -, -⟩ := hwf2
  refine ⟨_, compareWithBaseline_equal_dims fs cur nm bd dp img1 img2 h2 h1 hw hh,
    rfl, rfl, rfl, ?_, ?_, ?_⟩
  · positivity
  · have hn : pixelmatchCount img1.data img2.data ≤ img1.width * img1.height := by
      have hle := pixelmatchCount_le img1.data img2.data
      rw [hlen1, hlen2, ← hw, ← hh, min_self] at hle
      exact hle
    have ht : (0 : ℚ) < (img1.width : ℚ) * (img1.height : ℚ) := by
      have := mul_pos hwpos hhpos
      exact_mod_cast this
    rw [div_le_one ht]
    exact_mod_cast hn
  · rintro rfl
    refine ⟨?_, markedCount_mkDiffImage_self img1⟩
    rw [pixelmatchCount_self]
    simp

/-- Witness for C8 on two identical 1x1 images. -/
theorem c8_witness :
    ∃ c : ComparisonResult,
      compareWithBaseline
        ⟨[("screenshots/05a-before-click.png", ⟨1, 1, [⟨0, 0, 0, 255⟩]⟩),
          ("baselines/05a-before-click.png", ⟨1, 1, [⟨0, 0, 0, 255⟩]⟩)], []⟩
        "screenshots/05a-before-click.png" "05a-before-click" "baselines"
        "screenshots/05a-diff.png" =
        some (c,
          (⟨[("screenshots/05a-before-click.png", ⟨1, 1, [⟨0, 0, 0, 255⟩]⟩),
            ("baselines/05a-before-click.png", ⟨1, 1, [⟨0, 0, 0, 255⟩]⟩)], []⟩ : FS).writeFile
            "screenshots/05a-diff.png"
            (mkDiffImage ⟨1, 1, [⟨0, 0, 0, 255⟩]⟩ ⟨1, 1, [⟨0, 0, 0, 255⟩]⟩)) ∧
      c.skipped = false ∧ c.diffSaved = true ∧
      c.mismatchRatio =
        (pixelmatchCount [Pixel.mk 0 0 0 255] [Pixel.mk 0 0 0 255] : ℚ) /
          ((1 : ℚ) * (1 : ℚ)) ∧
      0 ≤ c.mismatchRatio ∧ c.mismatchRatio ≤ 1 ∧
      ((⟨1, 1, [⟨0, 0, 0, 255⟩]⟩ : Image) = ⟨1, 1, [⟨0, 0, 0, 255⟩]⟩ →
        c.mismatchRatio = 0 ∧
          (mkDiffImage ⟨1, 1, [⟨0, 0, 0, 255⟩]⟩ ⟨1, 1, [⟨0, 0, 0, 255⟩]⟩).markedCount = 0) :=
  c8_equal_dims_ratio _ _ _ _ _ ⟨1, 1, [⟨0, 0, 0, 255⟩]⟩ ⟨1, 1, [⟨0, 0, 0, 255⟩]⟩
    (by decide) (by decide) (by decide) (by decide) rfl rfl

/-- Claim C1 (amended: the gate fires on mismatch ratios strictly above
the 0.10 threshold, not at it): for every completed Test 5 run whose
baseline comparison is not skipped and whose mismatch ratio is strictly
above `VISUAL_DIFF_THRESHOLD`, the step is recorded as failed with the
diff image as its artifact, and neither the action attempt nor the
self-heal cycle is invoked. -/
theorem c1_visual_gate_strictly_above (fs0 : FS) (env : Test5Env)
    (out : Test5Outcome) (h : test5 fs0 env = some out)
    (hns : out.comparison.skipped = false)
    (hr : VISUAL_DIFF_THRESHOLD < out.comparison.mismatchRatio) :
    out.result.passed = false ∧ out.result.screenshot = diffPath ∧
      out.attemptsMade = 0 ∧ out.selfHealInvoked = false := by
  obtain ⟨c, fs2, hcmp, hco, hbr⟩ := test5_eq_some fs0 env out h
  rw [hco] at hns hr
  have hb : visuallyBroken c = true := by
    simp [visuallyBroken, hns, hr]
  rcases hbr with ⟨-, rfl⟩ | ⟨hb', -⟩ | ⟨hb', -⟩
  · exact ⟨rfl, rfl, rfl, rfl⟩
  · rw [hb] at hb'
    exact Bool.noConfusion hb'
  · rw [hb] at hb'
    exact Bool.noConfusion hb'

/-- Counterexample to C1 as stated ("at or above the threshold"): a run
whose mismatch ratio is exactly `0.10` — at the threshold — yet the
action attempt is invoked (and the step even passes), because the code
tests `mismatchRatio > VISUAL_DIFF_THRESHOLD` strictly.  The baseline is
a 5x2 black image and the current screenshot differs in exactly one of
its ten pixels. -/
theorem c1_counterexample_at_threshold :
    ((test5
        ⟨[(baselineFile BASELINES_DIR "05a-before-click",
            ⟨5, 2, List.replicate 10 ⟨0, 0, 0, 255⟩⟩)], []⟩
        ⟨⟨5, 2, ⟨255, 255, 0, 255⟩ :: List.replicate 9 ⟨0, 0, 0, 255⟩⟩,
          ⟨[⟨0, "https://cfe.jp/"⟩, ⟨1, "https://github.com/uzulla"⟩],
            "https://cfe.jp/"⟩,
          ⟨[⟨0, "https://cfe.jp/"⟩], "https://cfe.jp/"⟩,
          ⟨1, 1, [⟨0, 0, 0, 255⟩]⟩⟩).map fun out =>
      (out.comparison.skipped,
        decide (VISUAL_DIFF_THRESHOLD ≤ out.comparison.mismatchRatio),
        out.attemptsMade, out.selfHealInvoked, out.result.passed)) =
    some (false, true, 1, false, true) := by
  with_unfolding_all decide

/-- Witness for the amended C1 on a run whose single pixel differs
entirely (ratio 1 > 0.10): the step fails with the diff artifact and no
attempt is made. -/
theorem c1_witness :
    (test5
        ⟨[(baselineFile BASELINES_DIR "05a-before-click",
            ⟨1, 1, [⟨0, 0, 0, 255⟩]⟩)], []⟩
        ⟨⟨1, 1, [⟨255, 255, 255, 255⟩]⟩, ⟨[⟨0, "a"⟩], "a"⟩, ⟨[⟨0, "a"⟩], "a"⟩,
          ⟨1, 1, [⟨0, 0, 0, 255⟩]⟩⟩).elim False (fun out =>
      out.result.passed = false ∧ out.result.screenshot = diffPath ∧
        out.attemptsMade = 0 ∧ out.selfHealInvoked = false) := by
  have h :
      test5
        ⟨[(baselineFile BASELINES_DIR "05a-before-click",
            ⟨1, 1, [⟨0, 0, 0, 255⟩]⟩)], []⟩
        ⟨⟨1, 1, [⟨255, 255, 255, 255⟩]⟩, ⟨[⟨0, "a"⟩], "a"⟩, ⟨[⟨0, "a"⟩], "a"⟩,
          ⟨1, 1, [⟨0, 0, 0, 255⟩]⟩⟩ =
      some ⟨⟨1, true, false⟩, ⟨"Test 5: Click GitHub link", false, diffPath⟩, 0,
        false, [comparisonSsPath], none,
        ⟨[(diffPath, ⟨1, 1, [diffMark]⟩),
          (comparisonSsPath, ⟨1, 1, [⟨255, 255, 255, 255⟩]⟩),
          (baselineFile BASELINES_DIR "05a-before-click",
            ⟨1, 1, [⟨0, 0, 0, 255⟩]⟩)], []⟩⟩ := by with_unfolding_all decide
  rw [h]
  exact c1_visual_gate_strictly_above _ _ _ h (by with_unfolding_all decide)
    (by with_unfolding_all decide)

/-- Claim C2: for every completed Test 5 run that reaches the action phase
(the visual gate does not flag the page broken) and in which outcome
verification fails on every attempt, the orchestrator invokes
`actAndAssert` exactly twice — the initial attempt plus one self-heal
retry — and records the step as failed; a third attempt never happens. -/
theorem c2_exactly_two_attempts (fs0 : FS) (env : Test5Env)
    (out : Test5Outcome) (h : test5 fs0 env = some out)
    (hgate : visuallyBroken out.comparison = false)
    (h1 : (actAndAssert env.att1).success = false)
    (h2 : (actAndAssert env.att2).success = false) :
    out.attemptsMade = 2 ∧ out.result.passed = false ∧
      out.selfHealInvoked = true := by
  obtain ⟨c, fs2, hcmp, hco, hbr⟩ := test5_eq_some fs0 env out h
  rw [hco] at hgate
  rcases hbr with ⟨hb, -⟩ | ⟨-, hs, -⟩ | ⟨-, -, hfin⟩
  · rw [hgate] at hb
    exact Bool.noConfusion hb
  · rw [h1] at hs
    exact Bool.noConfusion hs
  · obtain ⟨lastP, -, -, hatt, hheal, -, -, hpass, -, -, -⟩ :=
      finishTest5_eq_some _ _ _ _ _ _ _ _ hfin
    rw [h2] at hpass
    exact ⟨hatt, hpass, hheal⟩

/-- Witness for C2: a first run (no baseline, comparison skipped) in which
both scripted attempts show only the original page still on the start URL. -/
theorem c2_witness :
    (⟨⟨0, false, true⟩, ⟨"Test 5: Click GitHub link", false, newTabPath⟩, 2,
        true, [comparisonSsPath],
        some ⟨[(comparisonSsPath, ⟨1, 1, [⟨0, 0, 0, 255⟩]⟩)], []⟩,
        ⟨[(comparisonSsPath, ⟨1, 1, [⟨0, 0, 0, 255⟩]⟩)], []⟩⟩ :
      Test5Outcome).attemptsMade = 2 ∧
    (⟨⟨0, false, true⟩, ⟨"Test 5: Click GitHub link", false, newTabPath⟩, 2,
        true, [comparisonSsPath],
        some ⟨[(comparisonSsPath, ⟨1, 1, [⟨0, 0, 0, 255⟩]⟩)], []⟩,
        ⟨[(comparisonSsPath, ⟨1, 1, [⟨0, 0, 0, 255⟩]⟩)], []⟩⟩ :
      Test5Outcome).result.passed = false ∧
    (⟨⟨0, false, true⟩, ⟨"Test 5: Click GitHub link", false, newTabPath⟩, 2,
        true, [comparisonSsPath],
        some ⟨[(comparisonSsPath, ⟨1, 1, [⟨0, 0, 0, 255⟩]⟩)], []⟩,
        ⟨[(comparisonSsPath, ⟨1, 1, [⟨0, 0, 0, 255⟩]⟩)], []⟩⟩ :
      Test5Outcome).selfHealInvoked = true :=
  c2_exactly_two_attempts ⟨[], []⟩
    ⟨⟨1, 1, [⟨0, 0, 0, 255⟩]⟩, ⟨[⟨0, "https://cfe.jp/"⟩], "https://cfe.jp/"⟩,
      ⟨[⟨0, "https://cfe.jp/"⟩], "https://cfe.jp/"⟩, ⟨1, 1, [⟨0, 0, 0, 255⟩]⟩⟩
    _ (by with_unfolding_all decide) (by with_unfolding_all decide)
    (by decide) (by decide)

/-- Claim C4: a baseline for the pre-action checkpoint is written if and
only if the step has been declared a pass — on the success path the stored
baseline equals the pre-action screenshot captured during that run, and on
every failing path the baseline file is left unchanged. -/
theorem c4_baseline_written_iff_pass (fs0 : FS) (env : Test5Env)
    (out : Test5Outcome) (h : test5 fs0 env = some out) :
    (out.result.passed = true →
      out.fs.readFile? (baselineFile BASELINES_DIR "05a-before-click") =
        some env.preClickImage) ∧
    (out.result.passed = false →
      out.fs.readFile? (baselineFile BASELINES_DIR "05a-before-click") =
        fs0.readFile? (baselineFile BASELINES_DIR "05a-before-click")) := by
  obtain ⟨c, fs2, hcmp, -, hbr⟩ := test5_eq_some fs0 env out h
  have hcs2 : fs2.readFile? comparisonSsPath = some env.preClickImage := by
    have hp := (compareWithBaseline_preserves _ _ _ _ _ _ _ hcmp
      comparisonSsPath (by decide)).1
    rw [hp, FS.readFile?_writeFile_self]
  have hbp2 : fs2.readFile? (baselineFile BASELINES_DIR "05a-before-click") =
      fs0.readFile? (baselineFile BASELINES_DIR "05a-before-click") := by
    have hp := (compareWithBaseline_preserves _ _ _ _ _ _ _ hcmp
      (baselineFile BASELINES_DIR "05a-before-click") (by decide)).1
    rw [hp, FS.readFile?_writeFile_ne _ _ _ _ (by decide)]
  rcases hbr with ⟨-, rfl⟩ | ⟨-, -, hfin⟩ | ⟨-, -, hfin⟩
  · constructor
    · intro hp
      exact Bool.noConfusion hp
    · intro _
      exact hbp2
  · exact finishTest5_baseline _ _ _ _ _ _ _ _ _ hfin hcs2 hbp2
  · have hcs3 : (clearCache fs2).readFile? comparisonSsPath =
        some env.preClickImage := by
      rw [clearCache_readFile?_of_not_under _ _ (by decide)]
      exact hcs2
    have hbp3 : (clearCache fs2).readFile?
          (baselineFile BASELINES_DIR "05a-before-click") =
        fs0.readFile? (baselineFile BASELINES_DIR "05a-before-click") := by
      rw [clearCache_readFile?_of_not_under _ _ (by decide)]
      exact hbp2
    exact finishTest5_baseline _ _ _ _ _ _ _ _ _ hfin hcs3 hbp3

/-- Witness for C4 on a first run (no baseline) whose first attempt opens
the GitHub page in a new tab: the step passes and the baseline file ends
up holding the pre-action screenshot. -/
theorem c4_witness :
    ((⟨⟨0, false, true⟩, ⟨"Test 5: Click GitHub link", true, newTabPath⟩, 1,
        false, [comparisonSsPath, newTabPath], none,
        ⟨[(baselineFile BASELINES_DIR "05a-before-click", ⟨1, 1, [⟨0, 0, 0, 255⟩]⟩),
          (newTabPath, ⟨1, 1, [⟨1, 2, 3, 255⟩]⟩),
          (comparisonSsPath, ⟨1, 1, [⟨0, 0, 0, 255⟩]⟩)], [BASELINES_DIR]⟩⟩ :
        Test5Outcome).result.passed = true →
      (⟨⟨0, false, true⟩, ⟨"Test 5: Click GitHub link", true, newTabPath⟩, 1,
        false, [comparisonSsPath, newTabPath], none,
        ⟨[(baselineFile BASELINES_DIR "05a-before-click", ⟨1, 1, [⟨0, 0, 0, 255⟩]⟩),
          (newTabPath, ⟨1, 1, [⟨1, 2, 3, 255⟩]⟩),
          (comparisonSsPath, ⟨1, 1, [⟨0, 0, 0, 255⟩]⟩)], [BASELINES_DIR]⟩⟩ :
        Test5Outcome).fs.readFile?
          (baselineFile BASELINES_DIR "05a-before-click") =
        some ⟨1, 1, [⟨0, 0, 0, 255⟩]⟩) ∧
    ((⟨⟨0, false, true⟩, ⟨"Test 5: Click GitHub link", true, newTabPath⟩, 1,
        false, [comparisonSsPath, newTabPath], none,
        ⟨[(baselineFile BASELINES_DIR "05a-before-click", ⟨1, 1, [⟨0, 0, 0, 255⟩]⟩),
          (newTabPath, ⟨1, 1, [⟨1, 2, 3, 255⟩]⟩),
          (comparisonSsPath, ⟨1, 1, [⟨0, 0, 0, 255⟩]⟩)], [BASELINES_DIR]⟩⟩ :
        Test5Outcome).result.passed = false →
      (⟨⟨0, false, true⟩, ⟨"Test 5: Click GitHub link", true, newTabPath⟩, 1,
        false, [comparisonSsPath, newTabPath], none,
        ⟨[(baselineFile BASELINES_DIR "05a-before-click", ⟨1, 1, [⟨0, 0, 0, 255⟩]⟩),
          (newTabPath, ⟨1, 1, [⟨1, 2, 3, 255⟩]⟩),
          (comparisonSsPath, ⟨1, 1, [⟨0, 0, 0, 255⟩]⟩)], [BASELINES_DIR]⟩⟩ :
        Test5Outcome).fs.readFile?
          (baselineFile BASELINES_DIR "05a-before-click") =
        (⟨[], []⟩ : FS).readFile?
          (baselineFile BASELINES_DIR "05a-before-click")) :=
  c4_baseline_written_iff_pass ⟨[], []⟩
    ⟨⟨1, 1, [⟨0, 0, 0, 255⟩]⟩,
      ⟨[⟨0, "https://cfe.jp/"⟩, ⟨1, "https://github.com/uzulla"⟩],
        "https://cfe.jp/"⟩,
      ⟨[⟨0, "https://cfe.jp/"⟩], "https://cfe.jp/"⟩,
      ⟨1, 1, [⟨1, 2, 3, 255⟩]⟩⟩
    _ (by with_unfolding_all decide)

/-- Claim C5 (amended: the re-provisioning guarantee only holds when the
cache directory existed before the clear): after the self-heal path clears
the action cache and before the retry attempt is made, if the cache
directory existed at the start of the run it exists and is empty; if it
was absent, the clear step is skipped entirely and the directory is still
absent at retry time. -/
theorem c5_cache_reprovision (fs0 : FS) (env : Test5Env) (out : Test5Outcome)
    (fsr : FS) (h : test5 fs0 env = some out) (hr : out.fsAtRetry = some fsr) :
    (fs0.existsDir cacheDir = true →
      fsr.existsDir cacheDir = true ∧ fsr.dirEmpty cacheDir = true) ∧
    (fs0.existsDir cacheDir = false → fsr.existsDir cacheDir = false) := by
  obtain ⟨c, fs2, hcmp, -, hbr⟩ := test5_eq_some fs0 env out h
  have hdirs : fs2.dirs = fs0.dirs := by
    have hp := (compareWithBaseline_preserves _ _ _ _ _ _ _ hcmp
      comparisonSsPath (by decide)).2
    rw [hp]
    rfl
  have hex : fs2.existsDir cacheDir = fs0.existsDir cacheDir := by
    unfold FS.existsDir
    rw [hdirs]
  rcases hbr with ⟨-, rfl⟩ | ⟨-, -, hfin⟩ | ⟨-, -, hfin⟩
  · exact Option.noConfusion hr
  · obtain ⟨lastP, -, -, -, -, hfsr, -⟩ := finishTest5_eq_some _ _ _ _ _ _ _ _ hfin
    rw [hfsr] at hr
    exact Option.noConfusion hr
  · obtain ⟨lastP, -, -, -, -, hfsr, -⟩ := finishTest5_eq_some _ _ _ _ _ _ _ _ hfin
    rw [hfsr, Option.some.injEq] at hr
    subst hr
    constructor
    · intro hd
      have h2 : fs2.existsDir cacheDir = true := by
        rw [hex]
        exact hd
      exact ⟨clearCache_existsDir fs2 h2, clearCache_dirEmpty fs2 h2⟩
    · intro hd
      have h2 : fs2.existsDir cacheDir = false := by
        rw [hex]
        exact hd
      rw [clearCache_of_absent fs2 h2, hex]
      exact hd

/-- Counterexample to C5 as stated: on a starting filesystem in which the
cache directory is absent, the self-heal cycle runs (`fsAtRetry` is set)
but the cache directory still does not exist at retry time, because the
clear-and-recreate block is guarded by `fs.existsSync(cacheDir)`. -/
theorem c5_counterexample_absent_cache :
    ((test5 ⟨[], []⟩
        ⟨⟨1, 1, [⟨0, 0, 0, 255⟩]⟩, ⟨[⟨0, "https://cfe.jp/"⟩], "https://cfe.jp/"⟩,
          ⟨[⟨0, "https://cfe.jp/"⟩], "https://cfe.jp/"⟩,
          ⟨1, 1, [⟨0, 0, 0, 255⟩]⟩⟩).map fun out =>
      (out.selfHealInvoked, out.fsAtRetry.map fun fsr =>
        fsr.existsDir cacheDir)) =
    some (true, some false) := by
  with_unfolding_all decide

/-- Witness for the amended C5 on a run whose starting filesystem has the
cache directory: after the self-heal clear it exists and is empty. -/
theorem c5_witness :
    ((⟨[], [cacheDir]⟩ : FS).existsDir cacheDir = true →
      (⟨[(comparisonSsPath, ⟨1, 1, [⟨0, 0, 0, 255⟩]⟩)], [cacheDir]⟩ :
          FS).existsDir cacheDir = true ∧
        (⟨[(comparisonSsPath, ⟨1, 1, [⟨0, 0, 0, 255⟩]⟩)], [cacheDir]⟩ :
          FS).dirEmpty cacheDir = true) ∧
    ((⟨[], [cacheDir]⟩ : FS).existsDir cacheDir = false →
      (⟨[(comparisonSsPath, ⟨1, 1, [⟨0, 0, 0, 255⟩]⟩)], [cacheDir]⟩ :
          FS).existsDir cacheDir = false) :=
  c5_cache_reprovision ⟨[], [cacheDir]⟩
    ⟨⟨1, 1, [⟨0, 0, 0, 255⟩]⟩, ⟨[⟨0, "https://cfe.jp/"⟩], "https://cfe.jp/"⟩,
      ⟨[⟨0, "https://cfe.jp/"⟩], "https://cfe.jp/"⟩, ⟨1, 1, [⟨0, 0, 0, 255⟩]⟩⟩
    ⟨⟨0, false, true⟩, ⟨"Test 5: Click GitHub link", false, newTabPath⟩, 2,
      true, [comparisonSsPath],
      some ⟨[(comparisonSsPath, ⟨1, 1, [⟨0, 0, 0, 255⟩]⟩)], [cacheDir]⟩,
      ⟨[(comparisonSsPath, ⟨1, 1, [⟨0, 0, 0, 255⟩]⟩)], [cacheDir]⟩⟩
    ⟨[(comparisonSsPath, ⟨1, 1, [⟨0, 0, 0, 255⟩]⟩)], [cacheDir]⟩
    (by with_unfolding_all decide) (by with_unfolding_all decide)

/-- Claim C10: when the final attempt fails outcome verification after the
self-heal cycle, the recorded Test Step Result always carries the fixed
path `screenshots/05b-new-tab.png` as its artifact, while that screenshot
is captured during the step exactly when the last open page differs from
the original page — so a failing run whose last open page is the original
page records an artifact path no capture of the run ever wrote. -/
theorem c10_fail_artifact_path (fs0 : FS) (env : Test5Env) (out : Test5Outcome)
    (lastP : Page) (h : test5 fs0 env = some out)
    (hheal : out.selfHealInvoked = true)
    (hfail : out.result.passed = false)
    (hlast : env.att2.allPages.getLast? = some lastP) :
    out.result.screenshot = newTabPath ∧
      (newTabPath ∈ out.captured ↔ lastP.id ≠ origId) := by
  obtain ⟨c, fs2, -, -, hbr⟩ := test5_eq_some fs0 env out h
  rcases hbr with ⟨-, rfl⟩ | ⟨-, -, hfin⟩ | ⟨-, -, hfin⟩
  · exact Bool.noConfusion hheal
  · obtain ⟨lastP', -, -, -, hheal', -⟩ := finishTest5_eq_some _ _ _ _ _ _ _ _ hfin
    rw [hheal'] at hheal
    exact Bool.noConfusion hheal
  · obtain ⟨lastP', hlast', -, -, -, -, -, -, hscreen, hcapt, -⟩ :=
      finishTest5_eq_some _ _ _ _ _ _ _ _ hfin
    have hsame : env.att2.allPages.getLast? = some lastP' := hlast'
    rw [hlast, Option.some.injEq] at hsame
    subst hsame
    refine ⟨hscreen, ?_⟩
    rw [hcapt]
    by_cases hid : lastP.id = origId
    · rw [if_neg (by simp [hid])]
      have hns : ¬(newTabPath = comparisonSsPath) := by decide
      simp [hid, hns]
    · rw [if_pos hid]
      simp [hid]

/-- Witness for C10 on a failing self-heal run whose last open page is the
original page: the recorded artifact is the new-tab path even though no
new-tab screenshot was captured. -/
theorem c10_witness :
    (⟨⟨0, false, true⟩, ⟨"Test 5: Click GitHub link", false, newTabPath⟩, 2,
        true, [comparisonSsPath],
        some ⟨[(comparisonSsPath, ⟨1, 1, [⟨0, 0, 0, 255⟩]⟩)], []⟩,
        ⟨[(comparisonSsPath, ⟨1, 1, [⟨0, 0, 0, 255⟩]⟩)], []⟩⟩ :
      Test5Outcome).result.screenshot = newTabPath ∧
    (newTabPath ∈
        (⟨⟨0, false, true⟩, ⟨"Test 5: Click GitHub link", false, newTabPath⟩, 2,
          true, [comparisonSsPath],
          some ⟨[(comparisonSsPath, ⟨1, 1, [⟨0, 0, 0, 255⟩]⟩)], []⟩,
          ⟨[(comparisonSsPath, ⟨1, 1, [⟨0, 0, 0, 255⟩]⟩)], []⟩⟩ :
        Test5Outcome).captured ↔
      (⟨0, "https://cfe.jp/"⟩ : Page).id ≠ origId) :=
  c10_fail_artifact_path ⟨[], []⟩
    ⟨⟨1, 1, [⟨0, 0, 0, 255⟩]⟩, ⟨[⟨0, "https://cfe.jp/"⟩], "https://cfe.jp/"⟩,
      ⟨[⟨0, "https://cfe.jp/"⟩], "https://cfe.jp/"⟩, ⟨1, 1, [⟨0, 0, 0, 255⟩]⟩⟩
    _ ⟨0, "https://cfe.jp/"⟩ (by with_unfolding_all decide)
    (by with_unfolding_all decide) (by with_unfolding_all decide) (by decide)
